import Mathlib

/-!
Verification development for the tableau-integration scripts of the
tobii-eye-tracking-pipeline repository.

The Python sources embedded here are
`scripts/build_hyper_extracts.py` (type inference, row conversion, batching,
schema lookup), `scripts/validate_csv_schemas.py` (type-checker selection and
CSV validation) and `scripts/package_tdsx.py` (archive packaging).

Modelling conventions:
* Python strings are Lean `String`s; a Python value that may be `None` is an
  `Option`.
* Python `int(s)` / `float(s)` string parsing is modelled character by
  character over ASCII input.  Underscore digit separators and non-ASCII
  digit or whitespace characters accepted by CPython are not modelled.
* `float` values are kept as exact decimal numbers `m * 10 ^ e`; IEEE-754
  rounding is not modelled, but overflow of `float(s)` to infinity at
  magnitude `2 ^ 1024` is, since `int(float(s))` raises on infinity.
* Dictionaries are association lists looked up with `List.find?`, which
  mirrors Python's insertion-ordered dicts.
-/

set_option maxRecDepth 40000

namespace Tobii

/-- Model of Python `str.lower()` (ASCII case mapping, applied character by
character). -/
def pyLower (s : String) : String := String.mk (s.data.map Char.toLower)

/-- ASCII whitespace characters stripped by Python's numeric string
constructors (`int(s)`, `float(s)`). -/
def isPySpace (c : Char) : Bool :=
  c = ' ' || c = '\t' || c = '\n' || c = '\r' || c = '\x0b' || c = '\x0c'

/-- Strip leading and trailing whitespace, as Python's numeric constructors
do before parsing. -/
def stripPySpaces (l : List Char) : List Char :=
  ((l.dropWhile isPySpace).reverse.dropWhile isPySpace).reverse

/-- Numeric value of a list of decimal digit characters. -/
def digitsToNat (ds : List Char) : Nat :=
  ds.foldl (fun acc c => acc * 10 + (c.toNat - '0'.toNat)) 0

/-- Model of Python `int(s)` on a string: optional surrounding whitespace,
an optional sign, then one or more decimal digits.  Returns `none` where
Python raises `ValueError`. -/
def pyParseInt (s : String) : Option Int :=
  let l := stripPySpaces s.data
  let signAndDigits : Bool × List Char :=
    match l with
    | '-' :: t => (true, t)
    | '+' :: t => (false, t)
    | t => (false, t)
  let neg := signAndDigits.1
  let ds := signAndDigits.2
  if ds ≠ [] ∧ ds.all Char.isDigit then
    some (if neg then -(digitsToNat ds : Int) else (digitsToNat ds : Int))
  else none

/-- Exact decimal number `m * 10 ^ e`, the value carried by a successfully
parsed Python float literal before IEEE rounding. -/
structure Dec where
  m : Int
  e : Int
deriving DecidableEq

/-- Result of Python `float(s)`: a finite decimal value, a signed infinity,
or NaN. -/
inductive PyFloat where
  | finite (d : Dec)
  | inf (neg : Bool)
  | nan
deriving DecidableEq

/-- Longest run of decimal digits at the head of the list, with the rest. -/
def spanDigits (l : List Char) : List Char × List Char :=
  l.span Char.isDigit

/-- Parse the numeric body of a Python float literal (after sign removal):
`digits [. digits] [exponent]` or `. digits [exponent]`, where the exponent
is `e`/`E`, an optional sign and one or more digits.  The whole list must be
consumed. -/
def parseDecimalBody (l : List Char) : Option Dec :=
  let ip := (spanDigits l).1
  let r1 := (spanDigits l).2
  let fracAndRest : List Char × List Char :=
    match r1 with
    | '.' :: t => spanDigits t
    | _ => ([], r1)
  let fp := fracAndRest.1
  let hadDot : Bool := match r1 with | '.' :: _ => true | _ => false
  let r2 := if hadDot then fracAndRest.2 else r1
  if ip.isEmpty ∧ fp.isEmpty then none
  else
    let mantissa : Int := (digitsToNat ip * 10 ^ fp.length + digitsToNat fp : Nat)
    match r2 with
    | [] => some ⟨mantissa, -(fp.length : Int)⟩
    | 'e' :: t =>
      let signAndRest : Bool × List Char :=
        match t with
        | '-' :: u => (true, u)
        | '+' :: u => (false, u)
        | u => (false, u)
      let eds := (spanDigits signAndRest.2).1
      let r3 := (spanDigits signAndRest.2).2
      if eds.isEmpty ∨ ¬ r3.isEmpty then none
      else
        let ev : Int := (digitsToNat eds : Int)
        some ⟨mantissa, (if signAndRest.1 then -ev else ev) - (fp.length : Int)⟩
    | 'E' :: t =>
      let signAndRest : Bool × List Char :=
        match t with
        | '-' :: u => (true, u)
        | '+' :: u => (false, u)
        | u => (false, u)
      let eds := (spanDigits signAndRest.2).1
      let r3 := (spanDigits signAndRest.2).2
      if eds.isEmpty ∨ ¬ r3.isEmpty then none
      else
        let ev : Int := (digitsToNat eds : Int)
        some ⟨mantissa, (if signAndRest.1 then -ev else ev) - (fp.length : Int)⟩
    | _ => none

/-- Magnitude test for overflow of Python `float(s)` to infinity: a decimal
value of magnitude at least `2 ^ 1024` becomes an infinity (the exact
round-to-nearest boundary just below `2 ^ 1024` is not modelled). -/
def decOverflows (d : Dec) : Bool :=
  if 0 ≤ d.e then (2 : Nat) ^ 1024 ≤ d.m.natAbs * 10 ^ d.e.toNat
  else (2 : Nat) ^ 1024 * 10 ^ (-d.e).toNat ≤ d.m.natAbs

/-- Model of Python `float(s)`: optional surrounding whitespace, optional
sign, then either a spelling of infinity or NaN (case-insensitive) or a
decimal literal.  Returns `none` where Python raises `ValueError`. -/
def pyParseFloat (s : String) : Option PyFloat :=
  let l := stripPySpaces s.data
  let signAndBody : Bool × List Char :=
    match l with
    | '-' :: t => (true, t)
    | '+' :: t => (false, t)
    | t => (false, t)
  let neg := signAndBody.1
  let low := signAndBody.2.map Char.toLower
  if low = "inf".data ∨ low = "infinity".data then some (.inf neg)
  else if low = "nan".data then some .nan
  else
    match parseDecimalBody signAndBody.2 with
    | some d =>
      let d' : Dec := if neg then ⟨-d.m, d.e⟩ else d
      if decOverflows d' then some (.inf neg) else some (.finite d')
    | none => none

/-- Truncation of an exact decimal value toward zero, as Python `int()`
applied to a finite float. -/
def decTrunc (d : Dec) : Int :=
  if 0 ≤ d.e then d.m * (10 : Int) ^ d.e.toNat
  else Int.tdiv d.m ((10 : Int) ^ (-d.e).toNat)

/-- Python `int()` applied to a float value: truncates finite values toward
zero; raises (`none`) on infinity and NaN. -/
def pyFloatToInt (x : PyFloat) : Option Int :=
  match x with
  | .finite d => some (decTrunc d)
  | .inf _ => none
  | .nan => none

/-- Model of Python `int(float(s))`: `none` when either step raises. -/
def pyIntOfFloatStr (s : String) : Option Int :=
  (pyParseFloat s).bind pyFloatToInt

/-! Model of `datetime.datetime.strptime` restricted to the three format
strings the scripts use: `"%Y-%m-%d %H:%M:%S"`, `"%Y-%m-%dT%H:%M:%S"` and
`"%Y-%m-%d"`.  CPython compiles each directive to a digit regex
(`%Y` exactly four digits, `%m` `1[0-2]|0[1-9]|[1-9]`, and so on), compiled
case-insensitively, with literal whitespace in the format matching one or
more whitespace characters; the whole string must be consumed, and the
matched numbers must then form a valid `datetime`. -/

/-- Calendar datetime produced by a successful strptime call. -/
structure PyDateTime where
  year : Nat
  month : Nat
  day : Nat
  hour : Nat
  minute : Nat
  second : Nat
deriving DecidableEq

/-- Exactly four decimal digits, as the `%Y` directive requires. -/
def parse4Digits : List Char → Option (Nat × List Char)
  | a :: b :: c :: d :: rest =>
    if a.isDigit ∧ b.isDigit ∧ c.isDigit ∧ d.isDigit then
      some (digitsToNat [a, b, c, d], rest)
    else none
  | _ => none

/-- The `%m` directive: `1[0-2]`, `0[1-9]` or a single `[1-9]`. -/
def parseMonthTok : List Char → Option (Nat × List Char)
  | c₁ :: c₂ :: rest =>
    if c₁ = '1' ∧ '0' ≤ c₂ ∧ c₂ ≤ '2' then some (digitsToNat [c₁, c₂], rest)
    else if c₁ = '0' ∧ '1' ≤ c₂ ∧ c₂ ≤ '9' then some (digitsToNat [c₁, c₂], rest)
    else if '1' ≤ c₁ ∧ c₁ ≤ '9' then some (digitsToNat [c₁], c₂ :: rest)
    else none
  | [c₁] => if '1' ≤ c₁ ∧ c₁ ≤ '9' then some (digitsToNat [c₁], []) else none
  | [] => none

/-- The `%d` directive: `3[01]`, `[12][0-9]`, `0[1-9]` or a single `[1-9]`. -/
def parseDayTok : List Char → Option (Nat × List Char)
  | c₁ :: c₂ :: rest =>
    if c₁ = '3' ∧ '0' ≤ c₂ ∧ c₂ ≤ '1' then some (digitsToNat [c₁, c₂], rest)
    else if ('1' ≤ c₁ ∧ c₁ ≤ '2') ∧ c₂.isDigit then some (digitsToNat [c₁, c₂], rest)
    else if c₁ = '0' ∧ '1' ≤ c₂ ∧ c₂ ≤ '9' then some (digitsToNat [c₁, c₂], rest)
    else if '1' ≤ c₁ ∧ c₁ ≤ '9' then some (digitsToNat [c₁], c₂ :: rest)
    else none
  | [c₁] => if '1' ≤ c₁ ∧ c₁ ≤ '9' then some (digitsToNat [c₁], []) else none
  | [] => none

/-- The `%H` directive: `2[0-3]`, `[01][0-9]` or a single digit. -/
def parseHourTok : List Char → Option (Nat × List Char)
  | c₁ :: c₂ :: rest =>
    if c₁ = '2' ∧ '0' ≤ c₂ ∧ c₂ ≤ '3' then some (digitsToNat [c₁, c₂], rest)
    else if ('0' ≤ c₁ ∧ c₁ ≤ '1') ∧ c₂.isDigit then some (digitsToNat [c₁, c₂], rest)
    else if c₁.isDigit then some (digitsToNat [c₁], c₂ :: rest)
    else none
  | [c₁] => if c₁.isDigit then some (digitsToNat [c₁], []) else none
  | [] => none

/-- The `%M` directive: `[0-5][0-9]` or a single digit. -/
def parseMinuteTok : List Char → Option (Nat × List Char)
  | c₁ :: c₂ :: rest =>
    if ('0' ≤ c₁ ∧ c₁ ≤ '5') ∧ c₂.isDigit then some (digitsToNat [c₁, c₂], rest)
    else if c₁.isDigit then some (digitsToNat [c₁], c₂ :: rest)
    else none
  | [c₁] => if c₁.isDigit then some (digitsToNat [c₁], []) else none
  | [] => none

/-- The `%S` directive: `6[01]`, `[0-5][0-9]` or a single digit (leap
seconds pass the regex; `datetime` rejects them afterwards). -/
def parseSecondTok : List Char → Option (Nat × List Char)
  | c₁ :: c₂ :: rest =>
    if c₁ = '6' ∧ '0' ≤ c₂ ∧ c₂ ≤ '1' then some (digitsToNat [c₁, c₂], rest)
    else if ('0' ≤ c₁ ∧ c₁ ≤ '5') ∧ c₂.isDigit then some (digitsToNat [c₁, c₂], rest)
    else if c₁.isDigit then some (digitsToNat [c₁], c₂ :: rest)
    else none
  | [c₁] => if c₁.isDigit then some (digitsToNat [c₁], []) else none
  | [] => none

/-- One required literal character. -/
def expectChar (c : Char) : List Char → Option (List Char)
  | x :: rest => if x = c then some rest else none
  | [] => none

/-- Literal whitespace in a strptime format matches one or more whitespace
characters of the input. -/
def expectSpaces : List Char → Option (List Char)
  | x :: rest => if isPySpace x then some (rest.dropWhile isPySpace) else none
  | [] => none

/-- Gregorian leap-year rule used by `datetime`. -/
def isLeapYear (y : Nat) : Bool :=
  y % 4 = 0 && (y % 100 ≠ 0 || y % 400 = 0)

/-- Number of days in a month of a given year. -/
def daysInMonth (y m : Nat) : Nat :=
  if m = 2 then (if isLeapYear y then 29 else 28)
  else if m = 4 ∨ m = 6 ∨ m = 9 ∨ m = 11 then 30
  else 31

/-- Validity conditions `datetime(...)` adds on top of the directive
regexes: year at least 1, day within the month, second at most 59. -/
def validDateTime (t : PyDateTime) : Bool :=
  1 ≤ t.year && t.day ≤ daysInMonth t.year t.month && t.second ≤ 59

/-- The common `%Y-%m-%d` part of the three formats. -/
def parseDateTok (l : List Char) : Option (Nat × Nat × Nat × List Char) := do
  let (y, r1) ← parse4Digits l
  let r2 ← expectChar '-' r1
  let (mo, r3) ← parseMonthTok r2
  let r4 ← expectChar '-' r3
  let (d, r5) ← parseDayTok r4
  pure (y, mo, d, r5)

/-- The common `%H:%M:%S` part of the two long formats. -/
def parseTimeTok (l : List Char) : Option (Nat × Nat × Nat × List Char) := do
  let (hh, r1) ← parseHourTok l
  let r2 ← expectChar ':' r1
  let (mm, r3) ← parseMinuteTok r2
  let r4 ← expectChar ':' r3
  let (ss, r5) ← parseSecondTok r4
  pure (hh, mm, ss, r5)

/-- The three format strings tried by the scripts, in their source order. -/
inductive TsFormat where
  | dateSpaceTime
  | dateTTime
  | dateOnly
deriving DecidableEq

/-- Model of `datetime.datetime.strptime(s, fmt)` for the three formats.
The separator `T` also matches `t` because CPython compiles the format
case-insensitively. -/
def strptime (fmt : TsFormat) (s : String) : Option PyDateTime := do
  let (y, mo, d, rest) ← parseDateTok s.data
  let t : PyDateTime ←
    match fmt with
    | .dateOnly =>
      if rest.isEmpty then some ⟨y, mo, d, 0, 0, 0⟩ else none
    | .dateSpaceTime => do
      let r1 ← expectSpaces rest
      let (hh, mm, ss, r2) ← parseTimeTok r1
      if r2.isEmpty then some ⟨y, mo, d, hh, mm, ss⟩ else none
    | .dateTTime => do
      let r1 ←
        match rest with
        | c :: t => if c = 'T' ∨ c = 't' then some t else none
        | [] => none
      let (hh, mm, ss, r2) ← parseTimeTok r1
      if r2.isEmpty then some ⟨y, mo, d, hh, mm, ss⟩ else none
  if validDateTime t then some t else none

/-- The ordered format list `("%Y-%m-%d %H:%M:%S", "%Y-%m-%dT%H:%M:%S",
"%Y-%m-%d")` appearing in both scripts. -/
def TS_FORMATS : List TsFormat := [.dateSpaceTime, .dateTTime, .dateOnly]

/-- First format of the list that parses the string, as the `for fmt in
(...)` loops in both scripts produce. -/
def strptimeFirst (s : String) : Option PyDateTime :=
  TS_FORMATS.findSome? (fun f => strptime f s)

/-! Embedding of `scripts/build_hyper_extracts.py`. -/

/-- The `SqlType` constructors used by the script: `SqlType.int()`,
`SqlType.double()`, `SqlType.timestamp()`, `SqlType.text()`. -/
inductive SqlType where
  | int
  | double
  | timestamp
  | text
deriving DecidableEq

/-- `DATE_FIELDS` from `build_hyper_extracts.py`. -/
def DATE_FIELDS : List String := ["timestamp", "start_time", "end_time", "date"]

/-- `INT_FIELDS` from `build_hyper_extracts.py`. -/
def INT_FIELDS : List String := ["participant_id", "trial", "cluster_id", "aoi_id"]

/-- `FLOAT_FIELDS` from `build_hyper_extracts.py`. -/
def FLOAT_FIELDS : List String := ["x", "y", "duration", "probability", "score", "value"]

/-- `str_to_sqltype` from `build_hyper_extracts.py`: lower-case the name,
then compare against the recognized spellings. -/
def str_to_sqltype (t : String) : SqlType :=
  let t := pyLower t
  if t = "int" then .int
  else if t = "double" ∨ t = "real" ∨ t = "float" then .double
  else if t = "timestamp" ∨ t = "datetime" then .timestamp
  else .text

/-- The local `is_int` of `infer_type`: `int(s)` succeeds. -/
def bh_is_int (s : String) : Bool := (pyParseInt s).isSome

/-- The local `is_float` of `infer_type`: `float(s)` succeeds. -/
def bh_is_float (s : String) : Bool := (pyParseFloat s).isSome

/-- The local `is_ts` of `infer_type`: some of the three formats parses. -/
def bh_is_ts (s : String) : Bool := (strptimeFirst s).isSome

/-- `infer_type` from `build_hyper_extracts.py`: header-name hints first,
then sample inspection over `non_empty[:10]`. -/
def infer_type (field : String) (sample_values : List String) : SqlType :=
  let f := pyLower field
  if f ∈ INT_FIELDS then .int
  else if f ∈ FLOAT_FIELDS then .double
  else if f ∈ DATE_FIELDS then .timestamp
  else
    let non_empty := sample_values.filter (fun v => v ≠ "")
    if ¬ non_empty.isEmpty ∧ (non_empty.take 10).all bh_is_int then .int
    else if ¬ non_empty.isEmpty ∧ (non_empty.take 10).all bh_is_float then .double
    else if ¬ non_empty.isEmpty ∧ (non_empty.take 10).any bh_is_ts then .timestamp
    else .text

/-- Value placed into the `values` list of `insert_csv`: Python `None` or a
typed payload. -/
inductive PyValue where
  | null
  | int (n : Int)
  | double (x : PyFloat)
  | timestamp (t : PyDateTime)
  | text (s : String)
deriving DecidableEq

/-- One row of `csv.DictReader`: column name to cell value, where a value
of `none` is Python `None` (a short CSV record). -/
abbrev PyRow := List (String × Option String)

/-- Python `row.get(key, None)` on a `DictReader` row. -/
def rowGet (row : PyRow) (k : String) : Option String :=
  match row.find? (fun p => p.1 = k) with
  | some p => p.2
  | none => none

/-- The per-cell conversion of `insert_csv` in `build_hyper_extracts.py`:
`None` or empty gives `None`; integer columns take `int(float(v))`, double
columns `float(v)`, timestamp columns the first matching format, each with
a catch-all `except` producing `None`; text columns keep the raw string. -/
def convert_cell (t : SqlType) (v : Option String) : PyValue :=
  match v with
  | Option.none => .null
  | some v =>
    if v = "" then .null
    else
      match t with
      | .int =>
        match pyIntOfFloatStr v with
        | some n => .int n
        | Option.none => .null
      | .double =>
        match pyParseFloat v with
        | some x => .double x
        | Option.none => .null
      | .timestamp =>
        match strptimeFirst v with
        | some d => .timestamp d
        | Option.none => .null
      | .text => .text v

/-- The per-row `values` list of `insert_csv`: one converted value per
table-definition column, in column order. -/
def convert_row (cols : List (String × SqlType)) (row : PyRow) : List PyValue :=
  cols.map (fun c => convert_cell c.2 (rowGet row c.1))

/-- All rows of a file converted, in order, one output row per input row. -/
def convert_rows (cols : List (String × SqlType)) (rows : List PyRow) : List (List PyValue) :=
  rows.map (convert_row cols)

/-- One loop iteration of the batching in `insert_csv`: append the row to
the buffer, and flush the buffer when it reaches 5000 rows. -/
def insertStep {α : Type} (acc : List (List α) × List α) (row : α) : List (List α) × List α :=
  let buf := acc.2 ++ [row]
  if 5000 ≤ buf.length then (acc.1 ++ [buf], []) else (acc.1, buf)

/-- The list of flushes `insert_csv` performs for a given row source: full
batches during the loop, then `if rows: ...` flushes a non-empty remainder. -/
def insert_batches {α : Type} (rows : List α) : List (List α) :=
  let r := rows.foldl insertStep ([], [])
  if r.2.isEmpty then r.1 else r.1 ++ [r.2]

/-! Model of `fnmatch.fnmatch` on POSIX, where `os.path.normcase` is the
identity, so matching is case-sensitive.  Character classes follow
`fnmatch.translate`: `!` first negates, a `]` right after the opening (or
after `!`) is literal, an unclosed `[` matches itself, and `a-b` inside a
class is a codepoint range. -/

/-- Does a character belong to a glob character-class body (negation already
stripped)?  `a-b` is a range; other characters, including a trailing or
leading `-`, match literally. -/
def classMatch : List Char → Char → Bool
  | a :: '-' :: b :: rest, c => (a ≤ c && c ≤ b) || classMatch rest c
  | a :: rest, c => (c = a) || classMatch rest c
  | [], _ => false

/-- Split a list at the first `]`, returning the part before it and the
part after; `none` when there is no `]`. -/
def splitOnClose : List Char → Option (List Char × List Char)
  | [] => Option.none
  | ']' :: rest => some ([], rest)
  | c :: rest => (splitOnClose rest).map (fun p => (c :: p.1, p.2))

/-- Interpret the pattern after an opening `[`: the negation flag, the class
body and the remaining pattern, or `none` when the class never closes. -/
def splitClass (ps : List Char) : Option (Bool × List Char × List Char) :=
  let negAndRest : Bool × List Char :=
    match ps with
    | '!' :: t => (true, t)
    | t => (false, t)
  match negAndRest.2 with
  | ']' :: t => (splitOnClose t).map (fun p => (negAndRest.1, ']' :: p.1, p.2))
  | t => (splitOnClose t).map (fun p => (negAndRest.1, p.1, p.2))

/-- Fuel-indexed glob matcher (`*`, `?`, `[...]`, literal); the fuel only
bounds recursion depth and `pattern.length + name.length + 1` always
suffices. -/
def globMatchFuel : Nat → List Char → List Char → Bool
  | 0, _, _ => false
  | _ + 1, [], s => s.isEmpty
  | fuel + 1, '*' :: ps, s =>
    globMatchFuel fuel ps s ||
      (match s with
       | [] => false
       | _ :: s' => globMatchFuel fuel ('*' :: ps) s')
  | fuel + 1, '?' :: ps, s =>
    (match s with
     | [] => false
     | _ :: s' => globMatchFuel fuel ps s')
  | fuel + 1, '[' :: ps, s =>
    (match splitClass ps with
     | some q =>
       (match s with
        | [] => false
        | c :: s' => (classMatch q.2.1 c != q.1) && globMatchFuel fuel q.2.2 s')
     | Option.none =>
       (match s with
        | [] => false
        | c :: s' => c = '[' && globMatchFuel fuel ps s'))
  | fuel + 1, p :: ps, s =>
    (match s with
     | [] => false
     | c :: s' => c = p && globMatchFuel fuel ps s')

/-- `fnmatch.fnmatch(name, pattern)` with POSIX case sensitivity. -/
def fnmatch (pattern name : String) : Bool :=
  globMatchFuel (pattern.data.length + name.data.length + 1) pattern.data name.data

/-- Column-name to type-name mapping of one schema entry. -/
abbrev ColumnMapping := List (String × String)

/-- The loaded `schema_config.json`: relative directory to an
insertion-ordered table of glob pattern to column mapping. -/
abbrev SchemaMap := List (String × List (String × ColumnMapping))

/-- `str(csv_path.parent.relative_to(root))` with separators normalized,
for paths modelled as component lists with `root` a prefix of `parent`; a
file directly in the root yields `"."` as `pathlib` does. -/
def relDirOf (root parent : List String) : String :=
  let rest := parent.drop root.length
  if rest.isEmpty then "." else String.intercalate "/" rest

/-- `lookup_fixed_types` from `build_hyper_extracts.py`: when the relative
directory is a key of the schema map, return the mapping of the first glob
pattern (in stored order) matching the file name; otherwise `None`. -/
def lookup_fixed_types (schemaMap : SchemaMap) (root parent : List String)
    (fileName : String) : Option ColumnMapping :=
  let rel_dir := relDirOf root parent
  match schemaMap.find? (fun e => e.1 = rel_dir) with
  | some e => (e.2.find? (fun p => fnmatch p.1 fileName)).map (fun p => p.2)
  | none => none

/-! Embedding of `scripts/validate_csv_schemas.py`. -/

/-- The validator's `_is_int`: `int(float(s))` succeeds. -/
def val_is_int (s : String) : Bool := (pyIntOfFloatStr s).isSome

/-- The validator's `_is_float`: `float(s)` succeeds. -/
def val_is_float (s : String) : Bool := (pyParseFloat s).isSome

/-- The validator's `_is_ts`: some of the three formats parses. -/
def val_is_ts (s : String) : Bool := (strptimeFirst s).isSome

/-- `TYPE_CHECKERS.get(t, TYPE_CHECKERS["text"])`: the dict has exactly the
keys `"int"`, `"double"`, `"timestamp"` and `"text"`, looked up without any
case normalization, and the `"text"` key maps to the default checker.  The
returned tag names which of the four checker lambdas is selected. -/
def typeCheckerFor (t : String) : SqlType :=
  if t = "int" then .int
  else if t = "double" then .double
  else if t = "timestamp" then .timestamp
  else .text

/-- The checker lambdas of `TYPE_CHECKERS`: each typed checker accepts the
empty string and `None`, and otherwise applies its parse predicate; the
text checker accepts everything. -/
def runChecker (k : SqlType) (s : Option String) : Bool :=
  match k, s with
  | .text, _ => true
  | _, Option.none => true
  | .int, some v => v == "" || val_is_int v
  | .double, some v => v == "" || val_is_float v
  | .timestamp, some v => v == "" || val_is_ts v

/-- `lookup_schema` from `validate_csv_schemas.py`; its body repeats
`lookup_fixed_types` with the schema map passed as a parameter. -/
def lookup_schema (schemaMap : SchemaMap) (root parent : List String)
    (fileName : String) : Option ColumnMapping :=
  let rel_dir := relDirOf root parent
  match schemaMap.find? (fun e => e.1 = rel_dir) with
  | some e => (e.2.find? (fun p => fnmatch p.1 fileName)).map (fun p => p.2)
  | none => none

/-- Python `row.get(key, default)` on a `DictReader` row. -/
def rowGetD (row : PyRow) (k : String) (dft : Option String) : Option String :=
  match row.find? (fun p => p.1 = k) with
  | some p => p.2
  | none => dft

/-- `validate_csv` from `validate_csv_schemas.py`: a line-0
`"missing column"` error per schema column absent from the header, then,
for each data row enumerated from 2 and each schema entry, an
`"expected <type>"` error whenever the selected checker rejects
`row.get(col, "")`. -/
def validate_csv (fieldnames : List String) (rows : List PyRow)
    (schema : List (String × String)) : List (Nat × String × String) :=
  let missing := (schema.map (fun p => p.1)).filter (fun c => decide (c ∉ fieldnames))
  let headerErrors := missing.map (fun c => ((0 : Nat), c, "missing column"))
  let rowErrors := rows.enum.flatMap (fun ir =>
    schema.filterMap (fun ct =>
      if runChecker (typeCheckerFor ct.2) (rowGetD ir.2 ct.1 (some "")) then
        Option.none
      else
        some (ir.1 + 2, ct.1, "expected " ++ ct.2)))
  headerErrors ++ rowErrors

/-! Embedding of `scripts/package_tdsx.py`. -/

/-- Base name of a path modelled as a component list (`Path.name`). -/
def pathName (p : List String) : String := p.getLast?.getD ""

/-- Archive entry names written by `package_tdsx`: the descriptor under its
own file name at the root, then the extract under `Data/Extracts/`. -/
def package_tdsx (tds hyper : List String) : List String :=
  [pathName tds, "Data/Extracts/" ++ pathName hyper]

/-- Paths present on disk, for the packager's precondition checks. -/
structure FileSystem where
  files : List (List String)
deriving DecidableEq

/-- `main` of `package_tdsx.py` as a state transition: each missing input
raises `FileNotFoundError` before any write, and only when both inputs
exist is the archive created at `out`.  The second component is the raised
error message, `none` on success. -/
def main_package (fs : FileSystem) (tds hyper out : List String) :
    FileSystem × Option String :=
  if ¬ tds ∈ fs.files then
    (fs, some ("Missing .tds: " ++ String.intercalate "/" tds))
  else if ¬ hyper ∈ fs.files then
    (fs, some ("Missing .hyper: " ++ String.intercalate "/" hyper))
  else
    ({ files := out :: fs.files }, Option.none)

/-! Definitions used only to state and settle the claims. -/

/-- The batch-size profile the spec describes: full batches of 5000, then
the remainder when it is non-zero. -/
def batchSizes (n : Nat) : List Nat :=
  List.replicate (n / 5000) 5000 ++ (if n % 5000 = 0 then [] else [n % 5000])

/-- Predicate that a result of `convert_cell` is either `None` or a payload
of the column's declared type. -/
def typedOrNull (t : SqlType) (v : PyValue) : Prop :=
  v = .null ∨
    match t with
    | .int => ∃ n, v = .int n
    | .double => ∃ x, v = .double x
    | .timestamp => ∃ d, v = .timestamp d
    | .text => ∃ s, v = .text s

/-- Does an exact decimal value have no fractional part? -/
def decIsIntegral (d : Dec) : Bool :=
  if 0 ≤ d.e then true else d.m % ((10 : Int) ^ (-d.e).toNat) == 0

/-- Integer test tolerant of a trailing `.0`-style float representation, as
claim C1 words it: a plain integer literal, or a float literal whose exact
value is integral (such as `"5.0"`). -/
def specTolerantInt (s : String) : Bool :=
  bh_is_int s ||
    (match pyParseFloat s with
     | some (.finite d) => decIsIntegral d
     | _ => false)

/-- Modelled from the words of claim C1 (for its refutation): the
sample-based waterfall with the tolerant integer test and every check
quantified over all sampled non-empty values. -/
def infer_type_claimC1 (sample_values : List String) : SqlType :=
  let non_empty := sample_values.filter (fun v => v ≠ "")
  if ¬ non_empty.isEmpty ∧ non_empty.all specTolerantInt then .int
  else if ¬ non_empty.isEmpty ∧ non_empty.all bh_is_float then .double
  else if ¬ non_empty.isEmpty ∧ non_empty.any bh_is_ts then .timestamp
  else .text

/-- The sample-based waterfall as the amended claim C1 words it: strict
`int()` parsing (no `.0` tolerance) and each check examining only the
first 10 non-empty sampled values. -/
def infer_type_fallback_amended (sample_values : List String) : SqlType :=
  let non_empty := sample_values.filter (fun v => v ≠ "")
  let probe := non_empty.take 10
  if ¬ non_empty.isEmpty ∧ probe.all (fun v => (pyParseInt v).isSome) then .int
  else if ¬ non_empty.isEmpty ∧ probe.all (fun v => (pyParseFloat v).isSome) then .double
  else if ¬ non_empty.isEmpty ∧ probe.any (fun v => (strptimeFirst v).isSome) then .timestamp
  else .text

/-- Eleven sample values whose first ten are integer literals and whose
eleventh is not numeric at all. -/
def elevenSamples : List String :=
  ["1", "1", "1", "1", "1", "1", "1", "1", "1", "1", "x"]

/-- Concrete schema map with two patterns under one directory, used to
evaluate the resolver on a file matched by the second pattern. -/
def demoSchemaMap : SchemaMap :=
  [("results", [("*.txt", [("a", "int")]), ("*.csv", [("x", "double")])])]

/-! Helper lemmas about the batching loop. -/

/-- One loop step on a buffer one short of the limit flushes. -/
theorem insertStep_eq_flush {α : Type} (fs : List (List α)) (buf : List α) (r : α)
    (h : 4999 ≤ buf.length) : insertStep (fs, buf) r = (fs ++ [buf ++ [r]], []) := by
  simp only [insertStep]
  rw [if_pos]
  simp only [List.length_append, List.length_cons, List.length_nil]
  omega

/-- One loop step on a buffer short of the limit only appends. -/
theorem insertStep_eq_push {α : Type} (fs : List (List α)) (buf : List α) (r : α)
    (h : buf.length < 4999) : insertStep (fs, buf) r = (fs, buf ++ [r]) := by
  simp only [insertStep]
  rw [if_neg]
  simp only [List.length_append, List.length_cons, List.length_nil]
  omega

/-- Running the loop over rows that do not fill the buffer only extends the
buffer. -/
theorem foldl_insertStep_small {α : Type} (rows : List α) (fs : List (List α))
    (buf : List α) (h : buf.length + rows.length < 5000) :
    rows.foldl insertStep (fs, buf) = (fs, buf ++ rows) := by
  induction rows generalizing buf with
  | nil => simp
  | cons r rest ih =>
    simp only [List.length_cons] at h
    simp only [List.foldl_cons, insertStep_eq_push fs buf r (by omega)]
    rw [ih (buf ++ [r])
      (by simp only [List.length_append, List.length_cons, List.length_nil]; omega)]
    simp

/-- Running the loop over exactly enough rows to fill the buffer performs
one flush and empties the buffer. -/
theorem foldl_insertStep_fill {α : Type} (rows₁ rows₂ : List α)
    (fs : List (List α)) (buf : List α) (hlt : buf.length < 5000)
    (h : buf.length + rows₁.length = 5000) :
    (rows₁ ++ rows₂).foldl insertStep (fs, buf) =
      rows₂.foldl insertStep (fs ++ [buf ++ rows₁], []) := by
  induction rows₁ generalizing buf with
  | nil => simp at h; omega
  | cons r rest ih =>
    simp only [List.length_cons] at h
    by_cases hfull : 4999 ≤ buf.length
    · have hrest : rest = [] := by
        have : rest.length = 0 := by omega
        exact List.length_eq_zero.mp this
      subst hrest
      simp only [List.cons_append, List.nil_append, List.foldl_cons,
        insertStep_eq_flush fs buf r hfull]
    · simp only [List.cons_append, List.foldl_cons,
        insertStep_eq_push fs buf r (by omega)]
      rw [ih (buf ++ [r])
        (by simp only [List.length_append, List.length_cons, List.length_nil]; omega)
        (by simp only [List.length_append, List.length_cons, List.length_nil]; omega)]
      simp

/-- Flushes already recorded in the accumulator pass through the loop
untouched, in front of whatever the loop adds. -/
theorem foldl_insertStep_shift {α : Type} (rows : List α) (fs₁ fs₂ : List (List α))
    (buf : List α) :
    rows.foldl insertStep (fs₁ ++ fs₂, buf) =
      (fs₁ ++ (rows.foldl insertStep (fs₂, buf)).1,
        (rows.foldl insertStep (fs₂, buf)).2) := by
  induction rows generalizing fs₂ buf with
  | nil => simp
  | cons r rest ih =>
    simp only [List.foldl_cons]
    by_cases hfull : 4999 ≤ buf.length
    · rw [insertStep_eq_flush (fs₁ ++ fs₂) buf r hfull,
        insertStep_eq_flush fs₂ buf r hfull,
        List.append_assoc, ih (fs₂ ++ [buf ++ [r]]) []]
    · rw [insertStep_eq_push (fs₁ ++ fs₂) buf r (by omega),
        insertStep_eq_push fs₂ buf r (by omega), ih fs₂ (buf ++ [r])]


/-- Every run of the batching loop produces exactly the flushes of
`batchSizes`, and the flushes concatenate back to the input rows. -/
theorem insert_batches_spec {α : Type} (rows : List α) :
    (insert_batches rows).map List.length = batchSizes rows.length ∧
      (insert_batches rows).flatten = rows := by
  by_cases h : rows.length < 5000
  · have hf := foldl_insertStep_small rows [] [] (by simpa using h)
    rcases hrows : rows with _ | ⟨r, rest⟩
    · constructor <;> simp [insert_batches, batchSizes]
    · rw [← hrows]
      have hne : rows ≠ [] := by simp [hrows]
      have hib : insert_batches rows = [rows] := by
        simp only [insert_batches, hf]
        rw [if_neg (by simpa using hne)]
        simp
      have h0 : rows.length % 5000 = rows.length := Nat.mod_eq_of_lt h
      have h1 : rows.length / 5000 = 0 := Nat.div_eq_of_lt h
      have h2 : rows.length ≠ 0 := by simp [hrows]
      constructor
      · simp [hib, batchSizes, h0, h1, h2]
      · simp [hib]
  · push_neg at h
    have hlen : (rows.take 5000).length = 5000 := by
      rw [List.length_take]; omega
    have hfold : rows.foldl insertStep (([] : List (List α)), ([] : List α)) =
        ([rows.take 5000] ++ ((rows.drop 5000).foldl insertStep ([], [])).1,
          ((rows.drop 5000).foldl insertStep ([], [])).2) := by
      conv_lhs => rw [← List.take_append_drop 5000 rows]
      rw [foldl_insertStep_fill (rows.take 5000) (rows.drop 5000) [] []
        (by simp) (by simp [hlen])]
      have := foldl_insertStep_shift (rows.drop 5000)
        [rows.take 5000] ([] : List (List α)) ([] : List α)
      simpa using this
    have key : insert_batches rows = rows.take 5000 :: insert_batches (rows.drop 5000) := by
      simp only [insert_batches, hfold]
      by_cases hb : ((rows.drop 5000).foldl insertStep ([], [])).2.isEmpty
      · rw [if_pos hb, if_pos hb]
        simp
      · rw [if_neg hb, if_neg hb]
        simp
    have hdl : (rows.drop 5000).length = rows.length - 5000 := by
      simp [List.length_drop]
    have IH := insert_batches_spec (rows.drop 5000)
    have hdiv : rows.length / 5000 = (rows.length - 5000) / 5000 + 1 := by omega
    have hmod : rows.length % 5000 = (rows.length - 5000) % 5000 := by omega
    constructor
    · rw [key]
      simp only [List.map_cons, hlen, IH.1, hdl, batchSizes, hdiv, hmod,
        List.replicate_succ, List.cons_append]
    · rw [key]
      simp only [List.flatten_cons, IH.2]
      exact List.take_append_drop 5000 rows
termination_by rows.length
decreasing_by
  simp only [List.length_drop]
  omega

/-- Every entry of a batch-size profile is positive: there is never an
empty flush. -/
theorem batchSizes_pos (n s : Nat) (hs : s ∈ batchSizes n) : 0 < s := by
  simp only [batchSizes, List.mem_append, List.mem_replicate] at hs
  rcases hs with h | h
  · omega
  · by_cases h0 : n % 5000 = 0
    · rw [if_pos h0] at h
      simp at h
    · rw [if_neg h0] at h
      simp at h
      omega

/-! Theorems settling the claims. -/

/-- Claim C2 (confirmed): for every column whose lower-cased name is in the
known-integer, known-float or known-timestamp set, `infer_type` returns the
corresponding type for every possible sample list; the samples are never
consulted. -/
theorem hints_dominate_samples (field : String) (samples : List String) :
    (pyLower field ∈ INT_FIELDS → infer_type field samples = SqlType.int) ∧
    (pyLower field ∈ FLOAT_FIELDS → infer_type field samples = SqlType.double) ∧
    (pyLower field ∈ DATE_FIELDS → infer_type field samples = SqlType.timestamp) := by
  refine ⟨fun h => ?_, fun h => ?_, fun h => ?_⟩
  · simp only [infer_type]
    rw [if_pos h]
  · have h1 : pyLower field ∉ INT_FIELDS :=
      (by decide : ∀ g ∈ FLOAT_FIELDS, g ∉ INT_FIELDS) _ h
    simp only [infer_type]
    rw [if_neg h1, if_pos h]
  · have h1 : pyLower field ∉ INT_FIELDS :=
      (by decide : ∀ g ∈ DATE_FIELDS, g ∉ INT_FIELDS) _ h
    have h2 : pyLower field ∉ FLOAT_FIELDS :=
      (by decide : ∀ g ∈ DATE_FIELDS, g ∉ FLOAT_FIELDS) _ h
    simp only [infer_type]
    rw [if_neg h1, if_neg h2, if_pos h]

/-- Witness for C2: the hinted column name `Trial` is typed integer even on
a non-numeric sample. -/
theorem hints_dominate_samples_witness :
    infer_type "Trial" ["abc"] = SqlType.int :=
  (hints_dominate_samples "Trial" ["abc"]).1 (by decide)

/-- Claim C1 (refuted as stated): the code is not tolerant of `.0`-style
integers (`["5.0"]` infers Double while the claim demands Integer), and it
consults only the first 10 non-empty samples (ten integers followed by
`"x"` infer Integer while the claim, quantifying over all sampled values,
demands Text). -/
theorem inference_waterfall_counterexample :
    (infer_type "foo" ["5.0"] = SqlType.double ∧
      infer_type_claimC1 ["5.0"] = SqlType.int) ∧
    (infer_type "foo" elevenSamples = SqlType.int ∧
      infer_type_claimC1 elevenSamples = SqlType.text) := by
  decide

/-- Claim C1 (amended, proved): for every column with no header-name hint,
`infer_type` is exactly the waterfall with strict `int()` parsing and every
check restricted to the first 10 non-empty sampled values. -/
theorem inference_waterfall_amended (field : String) (samples : List String)
    (h1 : pyLower field ∉ INT_FIELDS) (h2 : pyLower field ∉ FLOAT_FIELDS)
    (h3 : pyLower field ∉ DATE_FIELDS) :
    infer_type field samples = infer_type_fallback_amended samples := by
  simp only [infer_type, infer_type_fallback_amended]
  rw [if_neg h1, if_neg h2, if_neg h3]
  rfl

/-- Witness for the amended C1 at an unhinted column name. -/
theorem inference_waterfall_amended_witness :
    infer_type "foo" ["2.5"] = infer_type_fallback_amended ["2.5"] :=
  inference_waterfall_amended "foo" ["2.5"] (by decide) (by decide) (by decide)

/-- Claim C3 (confirmed): cell conversion is total with null-on-failure
semantics — every result is null or of the declared type, empty and absent
cells give null for every type, an Integer cell parses as a float and
truncates (`"5.0"` becomes integer 5), float-parse failure gives null, and
every input row yields exactly one output row. -/
theorem row_conversion_never_fails :
    (∀ (t : SqlType) (v : Option String), typedOrNull t (convert_cell t v)) ∧
    (∀ t : SqlType, convert_cell t Option.none = PyValue.null ∧
      convert_cell t (some "") = PyValue.null) ∧
    convert_cell SqlType.int (some "5.0") = PyValue.int 5 ∧
    (∀ s : String, pyParseFloat s = Option.none →
      convert_cell SqlType.int (some s) = PyValue.null) ∧
    (∀ (cols : List (String × SqlType)) (rows : List PyRow),
      (convert_rows cols rows).length = rows.length) := by
  refine ⟨?_, ?_, ?_, ?_, ?_⟩
  · intro t v
    cases v with
    | none => exact Or.inl rfl
    | some s =>
      by_cases hs : s = ""
      · exact Or.inl (by simp [convert_cell, hs])
      · cases t with
        | int =>
          cases hp : pyIntOfFloatStr s <;> simp [convert_cell, hs, hp, typedOrNull]
        | double =>
          cases hp : pyParseFloat s <;> simp [convert_cell, hs, hp, typedOrNull]
        | timestamp =>
          cases hp : strptimeFirst s <;> simp [convert_cell, hs, hp, typedOrNull]
        | text => simp [convert_cell, hs, typedOrNull]
  · intro t
    exact ⟨rfl, by simp [convert_cell]⟩
  · decide
  · intro s h
    by_cases hs : s = ""
    · simp [convert_cell, hs]
    · simp [convert_cell, hs, pyIntOfFloatStr, h]
  · intro cols rows
    simp [convert_rows]

/-- Witness for C3: a non-numeric Integer cell degrades to null. -/
theorem row_conversion_never_fails_witness :
    convert_cell SqlType.int (some "abc") = PyValue.null :=
  row_conversion_never_fails.2.2.2.1 "abc" (by decide)

/-- Claim C4 (confirmed): the batching loop flushes a full batch of 5000
each time the buffer fills, flushes the 1-to-4999 remainder once at the
end, never performs an empty flush, and in particular 12000 rows give
exactly the flushes 5000, 5000, 2000 and 5000 rows give exactly one
flush. -/
theorem batch_flush_boundary :
    (∀ (α : Type) (rows : List α),
      (insert_batches rows).map List.length = batchSizes rows.length ∧
      (insert_batches rows).flatten = rows ∧
      [] ∉ insert_batches rows) ∧
    (insert_batches (List.replicate 12000 PyValue.null)).map List.length =
      [5000, 5000, 2000] ∧
    (insert_batches (List.replicate 5000 PyValue.null)).map List.length = [5000] ∧
    (insert_batches (List.replicate 12000 PyValue.null)).length = 3 ∧
    (insert_batches (List.replicate 5000 PyValue.null)).length = 1 := by
  have inst12 : (insert_batches (List.replicate 12000 PyValue.null)).map List.length =
      [5000, 5000, 2000] := by
    have g := (insert_batches_spec (List.replicate 12000 PyValue.null)).1
    rw [List.length_replicate] at g
    rw [g]
    have h1 : (12000 : Nat) / 5000 = 2 := by norm_num
    have h2 : (12000 : Nat) % 5000 = 2000 := by norm_num
    simp only [batchSizes, h1, h2]
    rfl
  have inst5 : (insert_batches (List.replicate 5000 PyValue.null)).map List.length =
      [5000] := by
    have g := (insert_batches_spec (List.replicate 5000 PyValue.null)).1
    rw [List.length_replicate] at g
    rw [g]
    have h1 : (5000 : Nat) / 5000 = 1 := by norm_num
    have h2 : (5000 : Nat) % 5000 = 0 := by norm_num
    simp only [batchSizes, h1, h2]
    rfl
  refine ⟨fun α rows => ⟨(insert_batches_spec rows).1, (insert_batches_spec rows).2, ?_⟩,
    inst12, inst5, ?_, ?_⟩
  · intro hmem
    have h0 : (0 : Nat) ∈ (insert_batches rows).map List.length :=
      List.mem_map.mpr ⟨[], hmem, rfl⟩
    rw [(insert_batches_spec rows).1] at h0
    exact Nat.lt_irrefl 0 (batchSizes_pos _ _ h0)
  · have h := congrArg List.length inst12
    rw [List.length_map] at h
    exact h.trans rfl
  · have h := congrArg List.length inst5
    rw [List.length_map] at h
    exact h.trans rfl

/-- Witness for C4 on the concrete 12000-row source. -/
theorem batch_flush_boundary_witness :
    (insert_batches (List.replicate 12000 PyValue.null)).map List.length =
      [5000, 5000, 2000] :=
  batch_flush_boundary.2.1

/-- Claim C5 (refuted as stated): the extract builder maps `real`, `float`
and `datetime` to double and timestamp types, but the validator's checker
table, looked up by exact name, selects the always-true text checker for
those same names — the validator even accepts `"abc"` in a `real`
column. -/
theorem type_name_uniformity_counterexample :
    str_to_sqltype "real" = SqlType.double ∧ typeCheckerFor "real" = SqlType.text ∧
    str_to_sqltype "float" = SqlType.double ∧ typeCheckerFor "float" = SqlType.text ∧
    str_to_sqltype "datetime" = SqlType.timestamp ∧
    typeCheckerFor "datetime" = SqlType.text ∧
    runChecker (typeCheckerFor "real") (some "abc") = true ∧
    val_is_float "abc" = false := by
  decide

/-- Claim C5 (amended, proved): the two consumers agree exactly on the
names `int`, `double`, `timestamp` and `text`; the validator treats every
other name — including `real`, `float`, `datetime` and case variants such
as `INT` — as text, while the builder recognizes `real`, `float` and
`datetime` and lower-cases before comparing. -/
theorem type_name_recognition_amended :
    (∀ t : String, t ∈ (["int", "double", "timestamp", "text"] : List String) →
      typeCheckerFor t = str_to_sqltype t) ∧
    (∀ t : String, t ∉ (["int", "double", "timestamp"] : List String) →
      typeCheckerFor t = SqlType.text) ∧
    (∀ t : String,
      pyLower t ∉ (["int", "double", "real", "float", "timestamp", "datetime"] : List String) →
      str_to_sqltype t = SqlType.text) ∧
    str_to_sqltype "INT" = SqlType.int ∧ typeCheckerFor "INT" = SqlType.text := by
  refine ⟨?_, ?_, ?_, by decide, by decide⟩
  · intro t ht
    simp only [List.mem_cons, List.not_mem_nil, or_false] at ht
    rcases ht with rfl | rfl | rfl | rfl <;> decide
  · intro t ht
    simp only [List.mem_cons, List.not_mem_nil, or_false, not_or] at ht
    obtain ⟨h1, h2, h3⟩ := ht
    simp only [typeCheckerFor]
    rw [if_neg h1, if_neg h2, if_neg h3]
  · intro t ht
    simp only [List.mem_cons, List.not_mem_nil, or_false, not_or] at ht
    obtain ⟨h1, h2, h3, h4, h5, h6⟩ := ht
    simp only [str_to_sqltype]
    rw [if_neg h1, if_neg (by tauto : ¬(pyLower t = "double" ∨ pyLower t = "real" ∨
      pyLower t = "float")), if_neg (by tauto : ¬(pyLower t = "timestamp" ∨
      pyLower t = "datetime"))]

/-- Witness for the amended C5 at the shared name `int`. -/
theorem type_name_recognition_amended_witness :
    typeCheckerFor "int" = str_to_sqltype "int" :=
  type_name_recognition_amended.1 "int" (by decide)

/-- A Boolean-valued `find?` returns the head of the first satisfying
suffix when everything before it fails the predicate. -/
theorem find?_append_first {α : Type} (p : α → Bool) (pre : List α) (x : α)
    (post : List α) (hpre : ∀ a ∈ pre, p a = false) (hx : p x = true) :
    (pre ++ x :: post).find? p = some x := by
  induction pre with
  | nil => simp [List.find?_cons, hx]
  | cons a t ih =>
    have ha : p a = false := hpre a (by simp)
    simp only [List.cons_append, List.find?_cons, ha]
    exact ih (fun b hb => hpre b (List.mem_cons_of_mem _ hb))

/-- Claim C6 (confirmed): the resolver returns the mapping of the first
stored glob pattern matching the file name when the relative directory is a
key, `none` when the directory is absent or no pattern matches, never an
error (it is a total function), and the validator's lookup agrees with the
builder's. -/
theorem schema_resolver_contract :
    (∀ (m : SchemaMap) (root parent : List String) (name : String),
      m.find? (fun e => e.1 = relDirOf root parent) = Option.none →
      lookup_fixed_types m root parent name = Option.none) ∧
    (∀ (m : SchemaMap) (root parent : List String) (name : String) (d : String)
      (pre : List (String × ColumnMapping)) (pat : String) (mp : ColumnMapping)
      (post : List (String × ColumnMapping)),
      m.find? (fun e => e.1 = relDirOf root parent) = some (d, pre ++ (pat, mp) :: post) →
      (∀ q ∈ pre, fnmatch q.1 name = false) →
      fnmatch pat name = true →
      lookup_fixed_types m root parent name = some mp) ∧
    (∀ (m : SchemaMap) (root parent : List String) (name : String) (d : String)
      (pats : List (String × ColumnMapping)),
      m.find? (fun e => e.1 = relDirOf root parent) = some (d, pats) →
      (∀ q ∈ pats, fnmatch q.1 name = false) →
      lookup_fixed_types m root parent name = Option.none) ∧
    (∀ (m : SchemaMap) (root parent : List String) (name : String),
      lookup_schema m root parent name = lookup_fixed_types m root parent name) := by
  refine ⟨?_, ?_, ?_, ?_⟩
  · intro m root parent name h
    simp only [lookup_fixed_types, h]
  · intro m root parent name d pre pat mp post hfind hpre hpat
    simp only [lookup_fixed_types, hfind]
    rw [find?_append_first _ pre (pat, mp) post hpre hpat]
    rfl
  · intro m root parent name d pats hfind hall
    simp only [lookup_fixed_types, hfind]
    rw [List.find?_eq_none.mpr (fun a ha => by simp [hall a ha])]
    rfl
  · intro m root parent name
    rfl

/-- Witness for C6: a file matched by the second stored pattern receives
that pattern's mapping. -/
theorem schema_resolver_contract_witness :
    lookup_fixed_types demoSchemaMap ["proj"] ["proj", "results"] "data.csv" =
      some [("x", "double")] :=
  schema_resolver_contract.2.1 demoSchemaMap ["proj"] ["proj", "results"] "data.csv"
    "results" [("*.txt", [("a", "int")])] "*.csv" [("x", "double")] []
    (by decide) (by decide) (by decide)

/-- Claim C7 (confirmed): each schema column missing from the header yields
a line-0 `missing column` error; each cell whose selected checker rejects
it yields an error at its data line numbered from 2 (header is line 1); and
every reported error is either a line-0 missing-column error or has line
number at least 2. -/
theorem validator_error_numbering :
    (∀ (fieldnames : List String) (rows : List PyRow)
      (schema : List (String × String)) (c : String),
      c ∈ schema.map (fun p => p.1) → c ∉ fieldnames →
      (0, c, "missing column") ∈ validate_csv fieldnames rows schema) ∧
    (∀ (fieldnames : List String) (rows : List PyRow)
      (schema : List (String × String)) (i : Nat) (row : PyRow) (col t : String),
      rows[i]? = some row → (col, t) ∈ schema →
      runChecker (typeCheckerFor t) (rowGetD row col (some "")) = false →
      (i + 2, col, "expected " ++ t) ∈ validate_csv fieldnames rows schema) ∧
    (∀ (fieldnames : List String) (rows : List PyRow)
      (schema : List (String × String)) (e : Nat × String × String),
      e ∈ validate_csv fieldnames rows schema →
      (e.1 = 0 ∧ e.2.2 = "missing column") ∨ 2 ≤ e.1) := by
  refine ⟨?_, ?_, ?_⟩
  · intro fieldnames rows schema c hc hnot
    simp only [validate_csv, List.mem_append]
    left
    exact List.mem_map.mpr ⟨c,
      List.mem_filter.mpr ⟨hc, by simpa using hnot⟩, rfl⟩
  · intro fieldnames rows schema i row col t hget hmem hcheck
    simp only [validate_csv, List.mem_append]
    right
    refine List.mem_flatMap.mpr ⟨(i, row), List.mk_mem_enum_iff_getElem?.mpr ?_, ?_⟩
    · simpa using hget
    · exact List.mem_filterMap.mpr ⟨(col, t), hmem, by rw [if_neg (by simp [hcheck])]⟩
  · intro fieldnames rows schema e he
    simp only [validate_csv, List.mem_append] at he
    rcases he with he | he
    · obtain ⟨c, _, rfl⟩ := List.mem_map.mp he
      exact Or.inl ⟨rfl, rfl⟩
    · obtain ⟨⟨i, row⟩, _, hin⟩ := List.mem_flatMap.mp he
      obtain ⟨⟨col, t⟩, _, hg⟩ := List.mem_filterMap.mp hin
      by_cases hr : runChecker (typeCheckerFor t) (rowGetD row col (some "")) = true
      · rw [if_pos hr] at hg
        cases hg
      · rw [if_neg hr] at hg
        cases hg
        right
        omega

/-- Witness for C7: a missing schema column and a failing integer cell on
the first data row, which is physical line 2. -/
theorem validator_error_numbering_witness :
    (0, "b", "missing column") ∈
      validate_csv ["a"] [[("a", some "x")]] [("a", "int"), ("b", "int")] ∧
    (2, "a", "expected int") ∈
      validate_csv ["a"] [[("a", some "x")]] [("a", "int"), ("b", "int")] := by
  constructor
  · exact validator_error_numbering.1 ["a"] [[("a", some "x")]]
      [("a", "int"), ("b", "int")] "b" (by decide) (by decide)
  · exact validator_error_numbering.2.1 ["a"] [[("a", some "x")]]
      [("a", "int"), ("b", "int")] 0 [("a", some "x")] "a" "int"
      (by decide) (by decide) (by decide)

/-- Claim C8 (confirmed): packaging a descriptor and an extract produces an
archive with exactly two entries, the descriptor's base name at the root
and the extract under `Data/Extracts/`. -/
theorem archive_layout (tds hyper : List String) (a b : String)
    (ha : tds.getLast? = some a) (hb : hyper.getLast? = some b) :
    package_tdsx tds hyper = [a, "Data/Extracts/" ++ b] ∧
    (package_tdsx tds hyper).length = 2 := by
  constructor
  · simp [package_tdsx, pathName, ha, hb]
  · rfl

/-- Witness for C8 at `a.tds` and `b.hyper`. -/
theorem archive_layout_witness :
    package_tdsx ["templates", "a.tds"] ["outputs", "b.hyper"] =
      ["a.tds", "Data/Extracts/b.hyper"] :=
  (archive_layout ["templates", "a.tds"] ["outputs", "b.hyper"] "a.tds" "b.hyper"
    (by decide) (by decide)).1

/-- Claim C9 (confirmed): when either packager input is missing, the run
fails with an error message and the file system is unchanged — in
particular no archive, partial or otherwise, appears at the output path. -/
theorem packager_precondition (fs : FileSystem) (tds hyper out : List String)
    (h : tds ∉ fs.files ∨ hyper ∉ fs.files) :
    (main_package fs tds hyper out).1 = fs ∧
    (∃ msg, (main_package fs tds hyper out).2 = some msg) ∧
    (out ∉ fs.files → out ∉ (main_package fs tds hyper out).1.files) := by
  by_cases h1 : tds ∈ fs.files
  · have h2 : hyper ∉ fs.files := by tauto
    refine ⟨?_, ⟨"Missing .hyper: " ++ String.intercalate "/" hyper, ?_⟩, ?_⟩ <;>
      simp [main_package, h1, h2]
  · refine ⟨?_, ⟨"Missing .tds: " ++ String.intercalate "/" tds, ?_⟩, ?_⟩ <;>
      simp [main_package, h1]

/-- Witness for C9 on an empty file system. -/
theorem packager_precondition_witness :
    (main_package ⟨[]⟩ ["a.tds"] ["b.hyper"] ["out.tdsx"]).1 = ⟨[]⟩ :=
  (packager_precondition ⟨[]⟩ ["a.tds"] ["b.hyper"] ["out.tdsx"]
    (Or.inl (by decide))).1

/-- Claim C10 (refuted as stated): `"inf"` parses as a float, yet the
validator's `int` predicate rejects it (and the checker therefore reports
an error), so the predicate does not accept every float-parseable string
and rejection is not confined to float-parse failures; the intended core of
the claim does hold for finite floats such as `"5.5"`. -/
theorem int_predicate_counterexample :
    val_is_float "inf" = true ∧ val_is_int "inf" = false ∧
    runChecker (typeCheckerFor "int") (some "inf") = false ∧
    val_is_int "5.5" = true ∧
    runChecker (typeCheckerFor "int") (some "5.5") = true := by
  decide

/-- Claim C10 (amended, proved): the validator's `int` predicate accepts
exactly the strings whose float parse yields a finite value — every
finite-float string (integral or not) passes, while parse failures,
infinities and NaN fail. -/
theorem int_predicate_amended :
    (∀ (s : String) (d : Dec), pyParseFloat s = some (PyFloat.finite d) →
      val_is_int s = true) ∧
    (∀ s : String, pyParseFloat s = Option.none → val_is_int s = false) ∧
    (∀ (s : String) (b : Bool), pyParseFloat s = some (PyFloat.inf b) →
      val_is_int s = false) ∧
    (∀ s : String, pyParseFloat s = some PyFloat.nan → val_is_int s = false) := by
  refine ⟨?_, ?_, ?_, ?_⟩
  · intro s d h
    simp [val_is_int, pyIntOfFloatStr, h, pyFloatToInt]
  · intro s h
    simp [val_is_int, pyIntOfFloatStr, h]
  · intro s b h
    simp [val_is_int, pyIntOfFloatStr, h, pyFloatToInt]
  · intro s h
    simp [val_is_int, pyIntOfFloatStr, h, pyFloatToInt]

/-- Witness for the amended C10: the non-integral finite float `"2.5"`
passes the `int` predicate. -/
theorem int_predicate_amended_witness : val_is_int "2.5" = true :=
  int_predicate_amended.1 "2.5" ⟨25, -1⟩ (by decide)

end Tobii
